import Mathlib

/-!
Verification of the WhatsApp mirror server (`src/server/server.js`, with the
earlier variant in `src/unnamed/part_000`).  The server keeps three pieces of
mutable state relevant to the spec: `lastQr` (the cached, already-encoded QR
data URI), `readyAt` (timestamp of the last ready event), and it reads
`client.info` (owned by the whatsapp-web.js client, populated once the session
is ready).  Each socket.io / express handler is embedded as a pure function
from the state and the outcomes of the awaited adapter calls to the new state
and the list of pushes it performs.
-/

namespace WaMirror

/-- The identity snapshot exposed by whatsapp-web.js as `client.info`
(we only model the `pushname` field, the one the server reads). -/
structure WAInfo where
  pushname : String
deriving DecidableEq, Repr

/-- Server-side mutable state read and written by the handlers in
`server.js`: `lastQr` and `readyAt` are the two module-level variables;
`info` models `client.info`, owned by the external client object and
populated when the session becomes ready (absent before that). -/
structure ServerState where
  lastQr : Option String
  readyAt : Option Nat
  info : Option WAInfo
deriving DecidableEq, Repr

def initState : ServerState := ⟨none, none, none⟩

/-- A projected contact, as built by `fetchContacts`. -/
structure ContactOut where
  id : String
  name : String
  pushname : Option String
  number : String
  isBusiness : Bool
  lastSeen : Option Nat
deriving DecidableEq, Repr

/-- A projected chat, as built by `fetchChats`. -/
structure ChatOut where
  id : String
  name : String
  isGroup : Bool
  lastMessage : String
  lastTimestamp : Nat
deriving DecidableEq, Repr

/-- The socket.io events the server emits. -/
inductive Event
  | status (s : String)
  | qr (q : String)
  | message (sender : String) (body : String) (idSer : String)
  | contacts (cs : List ContactOut)
  | chats (cs : List ChatOut)
deriving DecidableEq, Repr

/-- Where a push goes: `io.emit` reaches every connected socket,
`socket.emit` only the one socket identified by its id. -/
inductive Target
  | all
  | one (sid : String)
deriving DecidableEq, Repr

/-- One push performed by a handler. -/
structure Push where
  target : Target
  event : Event
deriving DecidableEq, Repr

/-- JavaScript truthiness of `client.info?.pushname`: the optional chain is
undefined when `info` is absent, and an empty string is falsy. -/
def infoPushnameTruthy (st : ServerState) : Bool :=
  match st.info with
  | some i => i.pushname ≠ ""
  | none => false

/-- The `io.on('connection')` handler (server.js lines 36-43): emits a status
derived from `client.info?.pushname`, then, if a QR is cached, re-emits it
followed by a `status: 'qr'` event.  All three `emit`s are `socket.emit`,
addressed to the connecting socket only. -/
def onConnection (sid : String) (st : ServerState) : List Push :=
  ⟨.one sid, .status (if infoPushnameTruthy st then "connected" else "initializing")⟩ ::
    (match st.lastQr with
     | some q => [⟨.one sid, .qr q⟩, ⟨.one sid, .status "qr"⟩]
     | none => [])

/-- The status string the server associates with a pending QR scan
(what the spec calls the `AwaitingScan` phase): `client.on('qr')` broadcasts
`status: 'qr'`. -/
def awaitingScanStatus : String := "qr"

/-- The status string broadcast on the ready event (the spec's `Ready`
phase). -/
def readyStatus : String := "ready"

/-- The `client.on('qr')` handler (server.js lines 59-68).  Its single
awaited adapter call is `qrcode.toDataURL(qr)`, whose outcome is the
`enc` argument: on success the encoded data URI is stored in `lastQr`
and broadcast, on failure the catch block only logs. -/
def onQr (st : ServerState) (enc : Except String String) : ServerState × List Push :=
  match enc with
  | .ok d => ({ st with lastQr := some d }, [⟨.all, .qr d⟩, ⟨.all, .status "qr"⟩])
  | .error _ => (st, [])

/-- The `client.on('ready')` handler (server.js lines 70-84): records
`readyAt`, broadcasts `status: 'ready'`, then tries to fetch contacts and
chats and broadcast them; a fetch failure is caught and only logged.
`inf` models the client object having populated `client.info` by the time
it fires `ready`. -/
def onReady (st : ServerState) (now : Nat) (inf : WAInfo)
    (fetch : Except String (List ContactOut × List ChatOut)) : ServerState × List Push :=
  ({ st with readyAt := some now, info := some inf },
   ⟨.all, .status "ready"⟩ ::
     (match fetch with
      | .ok (cs, chs) => [⟨.all, .contacts cs⟩, ⟨.all, .chats chs⟩]
      | .error _ => []))

/-- The `client.on('message')` handler (server.js lines 87-96): broadcasts
the message, then tries to reload the chat list and broadcast it; a reload
failure is caught and only logged.  It touches no server state. -/
def onMessage (sender body idSer : String)
    (fetch : Except String (List ChatOut)) : List Push :=
  ⟨.all, .message sender body idSer⟩ ::
    (match fetch with
     | .ok chs => [⟨.all, .chats chs⟩]
     | .error _ => [])

/-- An HTTP response produced by a REST handler, as JSON `{ok, error?, id?}`
with its status code. -/
structure ApiResponse where
  status : Nat
  ok : Bool
  error : Option String
  id : Option String
deriving DecidableEq, Repr

/-- The `POST /api/logout` handler (server.js lines 196-207): awaits the
adapter's `client.logout()`; on success clears `lastQr`, broadcasts
`status: 'disconnected'` and answers `200 {ok:true}`; if the adapter call
throws, the catch block answers `500 {ok:false, error}` without touching
the state and without broadcasting. -/
def apiLogout (st : ServerState) (adapterLogout : Except String Unit) :
    ServerState × List Push × ApiResponse :=
  match adapterLogout with
  | .ok _ =>
      ({ st with lastQr := none }, [⟨.all, .status "disconnected"⟩],
       ⟨200, true, none, none⟩)
  | .error e => (st, [], ⟨500, false, some e, none⟩)

/-- The `socket.on('request-data')` handler (server.js lines 46-56): if
`client.info` is truthy (any object is), fetch contacts and chats together
and emit both to the requesting socket only; a fetch failure is caught and
only logged; when `client.info` is absent nothing happens at all. -/
def requestData (sid : String) (st : ServerState)
    (fetch : Except String (List ContactOut × List ChatOut)) : List Push :=
  match st.info with
  | some _ =>
      (match fetch with
       | .ok (cs, chs) => [⟨.one sid, .contacts cs⟩, ⟨.one sid, .chats chs⟩]
       | .error _ => [])
  | none => []

/-- JavaScript truthiness of an optional string (absent and `''` are falsy). -/
def strTruthy : Option String → Bool
  | some s => s ≠ ""
  | none => false

/-- JavaScript truthiness of an optional number (absent and `0` are falsy). -/
def natTruthy : Option Nat → Bool
  | some n => n ≠ 0
  | none => false

/-- `id.replace(/@.+$/, '')`: drop everything from the first `'@'` that is
followed by at least one character (a trailing lone `'@'` does not match). -/
def stripDomainChars : List Char → List Char
  | [] => []
  | ['@'] => ['@']
  | '@' :: _ :: _ => []
  | c :: rest => c :: stripDomainChars rest

def stripDomain (s : String) : String :=
  String.mk (stripDomainChars s.toList)

/-- A raw contact record as delivered by `client.getContacts()`; the server
reads `id._serialized`, `name`, `pushname` and `isBusiness`. -/
structure RawContact where
  id : String
  name : Option String
  pushname : Option String
  isBusiness : Bool
deriving DecidableEq, Repr

/-- The presence part of a `client.getContactById` result: the server reads
`full.presence.lastKnown` behind truthiness checks on each link. -/
structure FullContact where
  presence : Option Nat
deriving DecidableEq, Repr

/-- The loop body of `fetchContacts` (server.js lines 102-121) for one
contact: the presence lookup `client.getContactById(id)` is awaited inside
its own try/catch whose catch ignores the error, so `lastSeen` stays `null`
both when the call throws and when the result lacks a truthy
`presence.lastKnown`. -/
def projectContact (lookup : String → Except String (Option FullContact))
    (c : RawContact) : ContactOut :=
  let lastSeen :=
    match lookup c.id with
    | .ok (some full) =>
        match full.presence with
        | some lk => if lk ≠ 0 then some lk else none
        | none => none
    | .ok none => none
    | .error _ => none
  { id := c.id
    name := if strTruthy c.name then c.name.getD "" else
        if strTruthy c.pushname then c.pushname.getD "" else stripDomain c.id
    pushname := if strTruthy c.pushname then c.pushname else none
    number := stripDomain c.id
    isBusiness := c.isBusiness
    lastSeen := lastSeen }

/-- `fetchContacts` (server.js lines 98-123): iterates over the raw contacts
in order, pushing one projected record per raw contact; no sort. -/
def fetchContacts (lookup : String → Except String (Option FullContact)) :
    List RawContact → List ContactOut
  | [] => []
  | c :: rest => projectContact lookup c :: fetchContacts lookup rest

/-- The chat id object (`ch.id`): the server reads `_serialized` and `user`. -/
structure ChatId where
  serialized : String
  user : Option String
deriving DecidableEq, Repr

/-- The last message of a raw chat; the server reads `body`, `type` and
`timestamp`. -/
structure RawMsg where
  body : Option String
  mtype : Option String
  timestamp : Option Nat
deriving DecidableEq, Repr

/-- A raw chat as delivered by `client.getChats()`. -/
structure RawChat where
  id : ChatId
  name : Option String
  formattedTitle : Option String
  isGroup : Bool
  timestamp : Option Nat
  lastMessage : Option RawMsg
deriving DecidableEq, Repr

/-- The sort key `(x.timestamp || 0)` used by the comparator
`(a,b) => (b.timestamp || 0) - (a.timestamp || 0)`. -/
def chatKey (c : RawChat) : Nat :=
  if natTruthy c.timestamp then c.timestamp.getD 0 else 0

/-- Inserts a chat into a list already sorted descending by `chatKey`,
before the first strictly smaller key.  Since the element being inserted
comes earlier in the input than every element of the list, placing it
before equal keys preserves input order for ties, matching the stability
of `Array.prototype.sort`. -/
def insertDesc (x : RawChat) : List RawChat → List RawChat
  | [] => [x]
  | y :: ys => if chatKey y ≤ chatKey x then x :: y :: ys else y :: insertDesc x ys

/-- `chatsRaw.sort((a,b) => (b.timestamp || 0) - (a.timestamp || 0))`:
a stable sort, descending by `chatKey`. -/
def sortChats : List RawChat → List RawChat
  | [] => []
  | x :: xs => insertDesc x (sortChats xs)

/-- The loop body of `fetchChats` (server.js lines 131-147) for one chat.
`ts` is `ch?.timestamp || (lastMsg?.timestamp ? lastMsg.timestamp*1000 :
Date.now())`; `now` stands for `Date.now()`. -/
def projectChat (now : Nat) (ch : RawChat) : ChatOut :=
  let lastMsg := ch.lastMessage
  let ts :=
    if natTruthy ch.timestamp then ch.timestamp.getD 0
    else match lastMsg with
      | some m => if natTruthy m.timestamp then m.timestamp.getD 0 * 1000 else now
      | none => now
  let body :=
    match lastMsg with
    | none => ""
    | some m =>
        if strTruthy m.body then m.body.getD ""
        else if m.mtype = some "chat" then ""
        else if strTruthy m.mtype then m.mtype.getD "" else ""
  { id := ch.id.serialized
    name :=
      if strTruthy ch.name then ch.name.getD ""
      else if strTruthy ch.formattedTitle then ch.formattedTitle.getD ""
      else if strTruthy ch.id.user then (ch.id.user).getD ""
      else ch.id.serialized
    isGroup := ch.isGroup
    lastMessage := body
    lastTimestamp := ts }

/-- `fetchChats` (server.js lines 125-150): sorts the raw chats in place by
the chat-level timestamp (descending, missing treated as 0), then projects
each chat in the sorted order. -/
def fetchChats (now : Nat) (raw : List RawChat) : List ChatOut :=
  (sortChats raw).map (projectChat now)

/-- The `POST /api/send` handler (server.js lines 153-163 and
src/unnamed/part_000 lines 50-60, identical logic): `!to || !body` rejects
missing or empty fields with `400` before `client.sendMessage` is awaited;
otherwise any rejection of `client.sendMessage` is caught and surfaced as
`500 {ok:false, error}`.  The boolean records whether `client.sendMessage`
was invoked; `send` gives that call's outcome (the backend message id). -/
def apiSend (toField bodyField : Option String)
    (send : String → String → Except String String) : Bool × ApiResponse :=
  if !(strTruthy toField) || !(strTruthy bodyField) then
    (false, ⟨400, false, some "to and body required", none⟩)
  else
    match send (toField.getD "") (bodyField.getD "") with
    | .ok msgId => (true, ⟨200, true, none, some msgId⟩)
    | .error e => (true, ⟨500, false, some e, none⟩)

/-- One adapter-originated lifecycle event or control operation, paired with
the outcomes of the adapter calls the corresponding handler awaits.
`server.js` registers handlers only for `qr`, `ready` and `message`;
logout is the state-changing control operation. -/
inductive LEvent
  | challenge (enc : Except String String)
  | ready (now : Nat) (inf : WAInfo) (fetch : Except String (List ContactOut × List ChatOut))
  | incoming (sender body idSer : String) (fetch : Except String (List ChatOut))
  | logoutReq (adapterLogout : Except String Unit)

/-- Applies one lifecycle event / control operation to the server state,
returning the new state (the pushes are given by the individual handlers). -/
def step (st : ServerState) : LEvent → ServerState
  | .challenge enc => (onQr st enc).1
  | .ready now inf fetch => (onReady st now inf fetch).1
  | .incoming _ _ _ _ => st
  | .logoutReq r => (apiLogout st r).1

/-- Replays a sequence of lifecycle events / control operations from a
state. -/
def run (st : ServerState) : List LEvent → ServerState
  | [] => st
  | e :: es => run (step st e) es

/-! ## Shared lemmas -/

theorem fetchContacts_eq_map (lookup : String → Except String (Option FullContact))
    (raw : List RawContact) :
    fetchContacts lookup raw = raw.map (projectContact lookup) := by
  induction raw with
  | nil => rfl
  | cons c rest ih => simp [fetchContacts, ih]

theorem insertDesc_perm (x : RawChat) (l : List RawChat) :
    List.Perm (insertDesc x l) (x :: l) := by
  induction l with
  | nil => exact List.Perm.refl _
  | cons y ys ih =>
      by_cases h : chatKey y ≤ chatKey x
      · simp [insertDesc, h]
      · simpa [insertDesc, h] using (ih.cons y).trans (List.Perm.swap x y ys)

theorem sortChats_perm (l : List RawChat) : List.Perm (sortChats l) l := by
  induction l with
  | nil => exact List.Perm.refl _
  | cons x xs ih => exact (insertDesc_perm x (sortChats xs)).trans (ih.cons x)

theorem insertDesc_pairwise (x : RawChat) (l : List RawChat)
    (h : l.Pairwise (fun a b => chatKey b ≤ chatKey a)) :
    (insertDesc x l).Pairwise (fun a b => chatKey b ≤ chatKey a) := by
  induction l with
  | nil => simp [insertDesc]
  | cons y ys ih =>
      rcases List.pairwise_cons.mp h with ⟨hy, hys⟩
      by_cases hc : chatKey y ≤ chatKey x
      · simp only [insertDesc, if_pos hc]
        refine List.pairwise_cons.mpr ⟨?_, h⟩
        intro z hz
        rcases List.mem_cons.mp hz with rfl | hz'
        · exact hc
        · exact le_trans (hy z hz') hc
      · simp only [insertDesc, if_neg hc]
        refine List.pairwise_cons.mpr ⟨?_, ih hys⟩
        intro z hz
        rcases List.mem_cons.mp ((insertDesc_perm x ys).mem_iff.mp hz) with rfl | hz'
        · exact le_of_lt (lt_of_not_le hc)
        · exact hy z hz'

theorem sortChats_pairwise (l : List RawChat) :
    (sortChats l).Pairwise (fun a b => chatKey b ≤ chatKey a) := by
  induction l with
  | nil => exact List.Pairwise.nil
  | cons x xs ih => exact insertDesc_pairwise x (sortChats xs) ih

theorem insertDesc_filter (x : RawChat) (k : Nat) (l : List RawChat) :
    (insertDesc x l).filter (fun c => chatKey c == k) =
      if chatKey x == k then x :: l.filter (fun c => chatKey c == k)
      else l.filter (fun c => chatKey c == k) := by
  induction l with
  | nil => by_cases px : chatKey x == k <;> simp [insertDesc, px]
  | cons y ys ih =>
      by_cases hc : chatKey y ≤ chatKey x
      · by_cases px : chatKey x == k <;>
          simp [insertDesc, if_pos hc, List.filter_cons, px]
      · simp only [insertDesc, if_neg hc, List.filter_cons, ih]
        by_cases py : chatKey y == k
        · by_cases px : chatKey x == k
          · have hx : chatKey x = k := by simpa using px
            have hyk : chatKey y = k := by simpa using py
            exact (hc (by simp [hyk, hx])).elim
          · simp [py, px]
        · by_cases px : chatKey x == k <;> simp [py, px]

theorem sortChats_filter (k : Nat) (l : List RawChat) :
    (sortChats l).filter (fun c => chatKey c == k) =
      l.filter (fun c => chatKey c == k) := by
  induction l with
  | nil => rfl
  | cons x xs ih => simp [sortChats, insertDesc_filter, List.filter_cons, ih]

theorem projectChat_lastTimestamp_of_truthy (now : Nat) (c : RawChat)
    (h : natTruthy c.timestamp = true) :
    (projectChat now c).lastTimestamp = chatKey c := by
  simp [projectChat, chatKey, h]

/-! ## Claims -/

/-- Claim C1 (counterexample): in the AwaitingScan state reached by a
successfully encoded challenge event (`lastQr` cached, `client.info` still
absent), the connect handler pushes three events — status('initializing'),
qr, status('qr') — not the two pushes status(AwaitingScan)-then-qr the
claim requires. -/
theorem connect_awaiting_scan_cx :
    (onConnection "s" (run initState [LEvent.challenge (.ok "Q")])).length = 3 ∧
    onConnection "s" (run initState [LEvent.challenge (.ok "Q")]) ≠
      [⟨.one "s", .status awaitingScanStatus⟩, ⟨.one "s", .qr "Q"⟩] := by
  decide

/-- Claim C1 (amended): a subscriber connecting while the challenge is
cached and `client.info` is absent receives exactly three pushes, in order:
status('initializing') (derived from `client.info?.pushname`, not from the
AwaitingScan phase), then the cached challenge as a qr event, then
status('qr'). -/
theorem connect_awaiting_scan (sid : String) (st : ServerState) (q : String)
    (hinfo : st.info = none) (hqr : st.lastQr = some q) :
    onConnection sid st =
      [⟨.one sid, .status "initializing"⟩, ⟨.one sid, .qr q⟩,
       ⟨.one sid, .status "qr"⟩] := by
  simp [onConnection, infoPushnameTruthy, hinfo, hqr]

/-- Witness for the amended C1 at a concrete state. -/
theorem connect_awaiting_scan_witness :
    onConnection "s" ⟨some "Q", none, none⟩ =
      [⟨.one "s", .status "initializing"⟩, ⟨.one "s", .qr "Q"⟩,
       ⟨.one "s", .status "qr"⟩] :=
  connect_awaiting_scan "s" ⟨some "Q", none, none⟩ "Q" rfl rfl

/-- Claim C2 (counterexample): in the Ready state reached by a challenge
event followed by a ready event (the ready handler never clears `lastQr`),
a connecting subscriber receives three pushes including a replay of the
stale challenge, not the single status push the claim requires. -/
theorem connect_ready_cx :
    infoPushnameTruthy
      (run initState
        [LEvent.challenge (.ok "Q"),
         LEvent.ready 7 ⟨"Alice"⟩ (.ok ([], []))]) = true ∧
    (onConnection "s" (run initState
        [LEvent.challenge (.ok "Q"),
         LEvent.ready 7 ⟨"Alice"⟩ (.ok ([], []))])).length = 3 ∧
    ⟨.one "s", .qr "Q"⟩ ∈ onConnection "s" (run initState
        [LEvent.challenge (.ok "Q"),
         LEvent.ready 7 ⟨"Alice"⟩ (.ok ([], []))]) := by
  decide

/-- Claim C2 (amended): a subscriber connecting while `client.info` carries
a nonempty pushname first receives status('connected') (not a status named
after the ready broadcast); it receives exactly that one push only when no
challenge is cached, and since the ready handler does not clear the cache,
a challenge cached before readiness is replayed after it (qr then
status('qr')). -/
theorem connect_ready (sid : String) (st : ServerState)
    (hready : infoPushnameTruthy st = true) :
    (st.lastQr = none → onConnection sid st = [⟨.one sid, .status "connected"⟩]) ∧
    (∀ q, st.lastQr = some q →
      onConnection sid st =
        [⟨.one sid, .status "connected"⟩, ⟨.one sid, .qr q⟩,
         ⟨.one sid, .status "qr"⟩]) := by
  constructor
  · intro h; simp [onConnection, hready, h]
  · intro q h; simp [onConnection, hready, h]

/-- Witness for the amended C2 at concrete states, with and without a
cached challenge. -/
theorem connect_ready_witness :
    onConnection "s" ⟨none, some 7, some ⟨"Alice"⟩⟩ =
      [⟨.one "s", .status "connected"⟩] ∧
    onConnection "s" ⟨some "Q", some 7, some ⟨"Alice"⟩⟩ =
      [⟨.one "s", .status "connected"⟩, ⟨.one "s", .qr "Q"⟩,
       ⟨.one "s", .status "qr"⟩] :=
  ⟨(connect_ready "s" ⟨none, some 7, some ⟨"Alice"⟩⟩ (by decide)).1 rfl,
   (connect_ready "s" ⟨some "Q", some 7, some ⟨"Alice"⟩⟩ (by decide)).2 "Q" rfl⟩

/-- Claim C3 (counterexample): after a successfully encoded challenge event
followed by entry into Ready, the cached challenge is still present —
entry to Ready does not clear it, contradicting the claimed invariant. -/
theorem lastQr_cleared_cx :
    (run initState
        [LEvent.challenge (.ok "Q"),
         LEvent.ready 7 ⟨"Alice"⟩ (.ok ([], []))]).readyAt = some 7 ∧
    (run initState
        [LEvent.challenge (.ok "Q"),
         LEvent.ready 7 ⟨"Alice"⟩ (.ok ([], []))]).lastQr = some "Q" := by
  decide

/-- Claim C3 (amended): across every lifecycle event and control operation,
the cached challenge is cleared exactly by a successful logout, set exactly
by a successfully encoded challenge event, and left unchanged by everything
else — in particular entry to Ready does not clear it. -/
theorem lastQr_update (st : ServerState) (e : LEvent) :
    (step st e).lastQr =
      (match e with
       | .challenge (.ok d) => some d
       | .logoutReq (.ok _) => none
       | _ => st.lastQr) := by
  rcases e with enc | _ | _ | r
  · cases enc <;> simp [step, onQr]
  · simp [step, onReady]
  · simp [step]
  · cases r <;> simp [step, apiLogout]

/-- Claim C4 (counterexample): when the adapter's logout throws, the logout
handler leaves the cached challenge in place, broadcasts nothing, and
answers 500 — contradicting the claim that the state is cleared and a
Disconnected status is broadcast unconditionally. -/
theorem logout_cx :
    (apiLogout ⟨some "Q", some 3, some ⟨"Alice"⟩⟩ (.error "boom")).1.lastQr =
      some "Q" ∧
    (apiLogout ⟨some "Q", some 3, some ⟨"Alice"⟩⟩ (.error "boom")).2.1 = [] ∧
    (apiLogout ⟨some "Q", some 3, some ⟨"Alice"⟩⟩ (.error "boom")).2.2 =
      ⟨500, false, some "boom", none⟩ := by
  decide

/-- Claim C4 (amended): on a successful adapter logout the handler clears
the cached challenge, broadcasts status('disconnected') to all subscribers
and answers 200 ok, while `readyAt` is never cleared; when the adapter's
logout throws, the state is unchanged, nothing is broadcast, and the
handler answers 500 with the underlying message. -/
theorem logout_behavior (st : ServerState) (r : Except String Unit) :
    (∀ u, r = .ok u →
       (apiLogout st r).1.lastQr = none ∧
       (apiLogout st r).1.readyAt = st.readyAt ∧
       (apiLogout st r).2.1 = [⟨.all, .status "disconnected"⟩] ∧
       (apiLogout st r).2.2 = ⟨200, true, none, none⟩) ∧
    (∀ e, r = .error e →
       apiLogout st r = (st, [], ⟨500, false, some e, none⟩)) := by
  constructor
  · rintro u rfl; simp [apiLogout]
  · rintro e rfl; simp [apiLogout]

/-- Witness for the amended C4 at a concrete state, for both a successful
and a throwing adapter logout. -/
theorem logout_behavior_witness :
    ((apiLogout ⟨some "Q", some 3, some ⟨"Alice"⟩⟩ (.ok ())).1.lastQr = none ∧
     (apiLogout ⟨some "Q", some 3, some ⟨"Alice"⟩⟩ (.ok ())).1.readyAt = some 3 ∧
     (apiLogout ⟨some "Q", some 3, some ⟨"Alice"⟩⟩ (.ok ())).2.1 =
       [⟨.all, .status "disconnected"⟩] ∧
     (apiLogout ⟨some "Q", some 3, some ⟨"Alice"⟩⟩ (.ok ())).2.2 =
       ⟨200, true, none, none⟩) ∧
    apiLogout ⟨some "Q", some 3, some ⟨"Alice"⟩⟩ (.error "boom") =
      (⟨some "Q", some 3, some ⟨"Alice"⟩⟩, [], ⟨500, false, some "boom", none⟩) :=
  ⟨(logout_behavior ⟨some "Q", some 3, some ⟨"Alice"⟩⟩ (.ok ())).1 () rfl,
   (logout_behavior ⟨some "Q", some 3, some ⟨"Alice"⟩⟩ (.error "boom")).2 "boom" rfl⟩

/-- Claim C5 (counterexample): with one chat carrying a chat-level
timestamp of 5 and another carrying no chat-level timestamp but a last
message at second 10 (hence a computed `lastTimestamp` of 10000 ms), the
output of `fetchChats` is not sorted descending by the computed
`lastTimestamp`, because the sort runs first and keys the second chat
as 0. -/
theorem chats_sort_cx :
    (fetchChats 0
        [⟨⟨"A", none⟩, none, none, false, some 5, none⟩,
         ⟨⟨"B", none⟩, none, none, false, none,
           some ⟨some "hi", some "chat", some 10⟩⟩]).map ChatOut.lastTimestamp =
      [5, 10000] ∧
    ¬ (fetchChats 0
        [⟨⟨"A", none⟩, none, none, false, some 5, none⟩,
         ⟨⟨"B", none⟩, none, none, false, none,
           some ⟨some "hi", some "chat", some 10⟩⟩]).Pairwise
        (fun a b => b.lastTimestamp ≤ a.lastTimestamp) := by
  decide

/-- Claim C5 (amended): `fetchChats` returns the projection of the raw list
stably sorted descending by the chat-level timestamp (`timestamp || 0`):
the sorted raw list is pairwise descending in that key, keeps the input
order of chats with equal keys, and is a permutation of the input; the
output is sorted descending by the computed `lastActivityAt` value only
when every chat has a truthy chat-level timestamp (otherwise the fallback
keys computed after the sort can break the order). -/
theorem chats_sort (raw : List RawChat) (now : Nat) :
    (sortChats raw).Pairwise (fun a b => chatKey b ≤ chatKey a) ∧
    (∀ k : Nat, (sortChats raw).filter (fun c => chatKey c == k) =
       raw.filter (fun c => chatKey c == k)) ∧
    List.Perm (sortChats raw) raw ∧
    ((∀ c ∈ raw, natTruthy c.timestamp = true) →
       (fetchChats now raw).Pairwise
         (fun a b => b.lastTimestamp ≤ a.lastTimestamp)) := by
  refine ⟨sortChats_pairwise raw, fun k => sortChats_filter k raw,
    sortChats_perm raw, fun h => ?_⟩
  rw [fetchChats, List.pairwise_map]
  refine (sortChats_pairwise raw).imp_of_mem ?_
  intro a b ha hb hab
  have ha' : a ∈ raw := (sortChats_perm raw).mem_iff.mp ha
  have hb' : b ∈ raw := (sortChats_perm raw).mem_iff.mp hb
  rw [projectChat_lastTimestamp_of_truthy now a (h a ha'),
    projectChat_lastTimestamp_of_truthy now b (h b hb')]
  exact hab

/-- Witness for the amended C5 on a concrete list where every chat has a
truthy chat-level timestamp. -/
theorem chats_sort_witness :
    (fetchChats 0
        [⟨⟨"A", none⟩, none, none, false, some 3, none⟩,
         ⟨⟨"B", none⟩, none, none, false, some 5, none⟩]).Pairwise
      (fun a b => b.lastTimestamp ≤ a.lastTimestamp) :=
  (chats_sort
      [⟨⟨"A", none⟩, none, none, false, some 3, none⟩,
       ⟨⟨"B", none⟩, none, none, false, some 5, none⟩] 0).2.2.2 (by decide)

/-- Claim C6: `POST /api/send` with a missing or empty `to` or `body`
answers 400 without ever invoking the adapter's `sendMessage` (the boolean
component records that call); with both fields non-empty, a rejection of
`sendMessage` is surfaced as 500 with the underlying message. -/
theorem send_validation (toField bodyField : Option String)
    (send : String → String → Except String String) :
    ((toField = none ∨ toField = some "" ∨ bodyField = none ∨ bodyField = some "") →
       apiSend toField bodyField send =
         (false, ⟨400, false, some "to and body required", none⟩)) ∧
    (∀ t b e, toField = some t → bodyField = some b → t ≠ "" → b ≠ "" →
       send t b = .error e →
       apiSend toField bodyField send = (true, ⟨500, false, some e, none⟩)) := by
  constructor
  · intro h
    rcases h with rfl | rfl | rfl | rfl <;>
      simp [apiSend, strTruthy]
  · rintro t b e rfl rfl ht hb hsend
    simp [apiSend, strTruthy, ht, hb, hsend]

/-- Witness for C6: empty `to` is rejected without an adapter call, and a
throwing `sendMessage` on valid input yields a 500 with its message. -/
theorem send_validation_witness :
    apiSend (some "") (some "hello") (fun _ _ => .ok "id1") =
      (false, ⟨400, false, some "to and body required", none⟩) ∧
    apiSend (some "123@c.us") (some "hello") (fun _ _ => .error "boom") =
      (true, ⟨500, false, some "boom", none⟩) :=
  ⟨(send_validation (some "") (some "hello") (fun _ _ => .ok "id1")).1
      (Or.inr (Or.inl rfl)),
   (send_validation (some "123@c.us") (some "hello") (fun _ _ => .error "boom")).2
      "123@c.us" "hello" "boom" rfl rfl (by decide) (by decide) rfl⟩

/-- Claim C7: `fetchContacts` keeps every raw contact in the order
received (its output has the same ids in the same positions, with no sort)
and a throwing presence lookup for an individual contact leaves that
contact in the output with `lastSeen` absent. -/
theorem contacts_projection (lookup : String → Except String (Option FullContact))
    (raw : List RawContact) :
    ((fetchContacts lookup raw).map ContactOut.id = raw.map RawContact.id) ∧
    (∀ (i : Nat) (c : RawContact) (e : String),
       raw[i]? = some c → lookup c.id = .error e →
       (fetchContacts lookup raw)[i]? = some (projectContact lookup c) ∧
       (projectContact lookup c).lastSeen = none) := by
  constructor
  · rw [fetchContacts_eq_map, List.map_map]
    exact List.map_congr_left fun c _ => rfl
  · intro i c e hget hl
    refine ⟨?_, ?_⟩
    · rw [fetchContacts_eq_map, List.getElem?_map, hget]; rfl
    · simp [projectContact, hl]

/-- Witness for C7: a single contact whose presence lookup throws is still
projected, with `lastSeen` absent. -/
theorem contacts_projection_witness :
    (fetchContacts (fun _ => .error "down")
        [⟨"a@c.us", none, none, false⟩])[0]? =
      some (projectContact (fun _ => .error "down") ⟨"a@c.us", none, none, false⟩) ∧
    (projectContact (fun _ => .error "down") ⟨"a@c.us", none, none, false⟩).lastSeen =
      none :=
  (contacts_projection (fun _ => .error "down")
      [⟨"a@c.us", none, none, false⟩]).2 0 ⟨"a@c.us", none, none, false⟩ "down" rfl rfl

/-- Claim C8: every push of the `request-data` handler is addressed to the
requesting socket only; when `client.info` is present and the joint fetch
succeeds the handler pushes exactly contacts then chats to that socket;
when `client.info` is absent, or the fetch fails, it pushes nothing and
raises no error. -/
theorem request_data_scoped (sid : String) (st : ServerState)
    (fetch : Except String (List ContactOut × List ChatOut)) :
    (∀ p ∈ requestData sid st fetch, p.target = .one sid) ∧
    (∀ inf cs chs, st.info = some inf → fetch = .ok (cs, chs) →
       requestData sid st fetch =
         [⟨.one sid, .contacts cs⟩, ⟨.one sid, .chats chs⟩]) ∧
    (st.info = none → requestData sid st fetch = []) ∧
    (∀ e, fetch = .error e → requestData sid st fetch = []) := by
  refine ⟨?_, ?_, ?_, ?_⟩
  · intro p hp
    rw [requestData.eq_def] at hp
    rcases hst : st.info with _ | inf <;> rw [hst] at hp
    · simp at hp
    · rcases fetch with e | ⟨cs, chs⟩
      · simp at hp
      · simp at hp
        rcases hp with rfl | rfl <;> rfl
  · rintro inf cs chs hst rfl
    rw [requestData.eq_def, hst]
  · intro hst
    rw [requestData.eq_def, hst]
  · rintro e rfl
    rw [requestData.eq_def]
    rcases st.info with _ | inf <;> rfl

/-- Witness for C8: with `client.info` present and a successful fetch the
pushes go to the requesting socket only; with `client.info` absent nothing
is pushed. -/
theorem request_data_scoped_witness :
    requestData "s" ⟨none, some 7, some ⟨"Alice"⟩⟩ (.ok ([], [])) =
      [⟨.one "s", .contacts []⟩, ⟨.one "s", .chats []⟩] ∧
    requestData "s" ⟨some "Q", none, none⟩ (.ok ([], [])) = [] :=
  ⟨(request_data_scoped "s" ⟨none, some 7, some ⟨"Alice"⟩⟩ (.ok ([], []))).2.1
      ⟨"Alice"⟩ [] [] rfl rfl,
   (request_data_scoped "s" ⟨some "Q", none, none⟩ (.ok ([], []))).2.2.1 rfl⟩

/-- Claim C9: the message handler's first broadcast is always the message
event; when the subsequent chat refetch fails the message broadcast alone
is performed (never suppressed or retracted), and when it succeeds the
chats broadcast follows the message broadcast in emission order. -/
theorem message_before_chats (sender body idSer : String)
    (fetch : Except String (List ChatOut)) :
    (onMessage sender body idSer fetch).head? =
      some ⟨.all, .message sender body idSer⟩ ∧
    (∀ e, fetch = .error e →
       onMessage sender body idSer fetch = [⟨.all, .message sender body idSer⟩]) ∧
    (∀ chs, fetch = .ok chs →
       onMessage sender body idSer fetch =
         [⟨.all, .message sender body idSer⟩, ⟨.all, .chats chs⟩]) := by
  refine ⟨rfl, ?_, ?_⟩
  · rintro e rfl; rfl
  · rintro chs rfl; rfl

/-- Witness for C9 with a failing and a succeeding chat refetch. -/
theorem message_before_chats_witness :
    onMessage "alice@c.us" "hi" "m1" (.error "boom") =
      [⟨.all, .message "alice@c.us" "hi" "m1"⟩] ∧
    onMessage "alice@c.us" "hi" "m1" (.ok []) =
      [⟨.all, .message "alice@c.us" "hi" "m1"⟩, ⟨.all, .chats []⟩] :=
  ⟨(message_before_chats "alice@c.us" "hi" "m1" (.error "boom")).2.1 "boom" rfl,
   (message_before_chats "alice@c.us" "hi" "m1" (.ok [])).2.2 [] rfl⟩

/-- Claim C10: the qr handler replaces the cached challenge only when the
encoding succeeds (then it stores exactly the encoded artifact and
broadcasts qr then status('qr')); when the encoding throws, the whole
state — in particular the previously cached challenge — is unchanged and
nothing is emitted. -/
theorem qr_encode_guard (st : ServerState) :
    (∀ err, onQr st (.error err) = (st, [])) ∧
    (∀ d, (onQr st (.ok d)).1 = { st with lastQr := some d } ∧
       (onQr st (.ok d)).2 = [⟨.all, .qr d⟩, ⟨.all, .status "qr"⟩]) :=
  ⟨fun _ => rfl, fun _ => ⟨rfl, rfl⟩⟩

end WaMirror
